import Mathlib

/-!
Shallow embedding of the workflow execution engine of the
`mastra-location-agent` repository (`src/workflows/workflow-engine.ts`,
with the IP-syntax validator from `src/agents/location-agent.ts`).

The source file contains two concatenated revisions of the engine; the
functions they share (`executeLocationWorkflow`, `executeWeatherWorkflow`,
`executeStep`, `getExecution`, `generateExecutionId`, `getAllExecutions`,
`clearCompletedExecutions`) are textually identical in both, and
`executeLocationAnalysisWorkflow` appears only in the first revision,
`executeTravelPlanningWorkflow` only in the second.  Each function is
embedded once.

Modelling conventions:
* JavaScript `Date.now()` readings are `Int` parameters supplied by the
  environment (one pair per step); ISO timestamp strings are opaque
  `String` fields of the environment.
* A zero-argument async operation either resolves to a string or rejects;
  a rejection carries `some msg` when the thrown value is an `Error` with
  a message (`error instanceof Error`), `none` when it carries no message.
* External collaborator calls are oracles (`CollabResult`) supplied by the
  environment; every collaborator invocation is also recorded in a call
  trace so that "collaborator never called" is expressible.
* `JSON.stringify` on the structured values that the engine itself builds
  is embedded as an explicit string builder; `JSON.parse` applied to a
  string that the same run produced with `JSON.stringify` is embedded as
  the identity round trip (the parsed value is used directly).
* JavaScript truthiness of optional strings (`undefined` and `""` are
  falsy) is `strTruthy`.
* The engine's `executions` JavaScript `Map` is an insertion-ordered
  association list with unique keys; `Map.set` replaces an existing key
  and appends a fresh one.
-/

namespace WorkflowEngine

/-- Status enum of `WorkflowStepSchema` / `WorkflowExecutionSchema`
(`z.enum(['pending', 'running', 'completed', 'failed'])`). -/
inductive Status where
  | pending
  | running
  | completed
  | failed
  deriving DecidableEq, Repr

/-- One unit of work inside an execution (`WorkflowStepType`).  Optional
fields that the source leaves `undefined` are `none`. -/
structure Step where
  name : String
  status : Status
  input : Option String := none
  output : Option String := none
  error : Option String := none
  duration : Option Int := none
  deriving DecidableEq, Repr

/-- One invocation of a workflow (`WorkflowExecution`). -/
structure WorkflowExecution where
  id : String
  status : Status
  steps : List Step
  result : Option String := none
  error : Option String := none
  startedAt : String
  completedAt : Option String := none
  deriving DecidableEq, Repr

/-- Result of awaiting a zero-argument asynchronous operation: it either
resolves with an output string or rejects.  A rejection carries the
thrown `Error`'s message, or `none` when the thrown value is not an
`Error` (so that `error instanceof Error` is false). -/
inductive OpResult where
  | ok (out : String)
  | err (msg : Option String)
  deriving DecidableEq, Repr

/-- The source's error-message extraction
`error instanceof Error ? error.message : 'Unknown error'`. -/
def errMessage (m : Option String) : String := m.getD "Unknown error"

/-- Embedding of `WorkflowEngine.executeStep` (identical in both
revisions of the source file).  `t0` and `t1` are the two `Date.now()`
readings taken before the operation starts and in the `finally` block;
the returned record is the step after the `try`/`catch`/`finally` has
settled, so the initial `running` status has been overwritten. -/
def executeStep (name : String) (op : OpResult) (input : Option String)
    (t0 t1 : Int) : Step :=
  match op with
  | .ok out =>
      { name := name, status := .completed, input := input,
        output := some out, error := none, duration := some (t1 - t0) }
  | .err m =>
      { name := name, status := .failed, input := input,
        output := none, error := some (errMessage m), duration := some (t1 - t0) }

/-- C1: `executeStep` never propagates a fault: for every name, input
descriptor and operation outcome it returns a settled `Step` record —
`completed` with the output populated on success; `failed` with the
error message taken from the failure's message, or the fallback
`"Unknown error"` when the failure carries no message; and in every case
the duration is the wall-clock elapsed time between the two
`Date.now()` readings. -/
theorem executeStep_total_spec (name : String) (op : OpResult)
    (input : Option String) (t0 t1 : Int) :
    (executeStep name op input t0 t1).duration = some (t1 - t0) ∧
    (executeStep name op input t0 t1).name = name ∧
    (executeStep name op input t0 t1).input = input ∧
    ((∃ out, op = .ok out ∧
        executeStep name op input t0 t1 =
          { name := name, status := .completed, input := input,
            output := some out, error := none, duration := some (t1 - t0) }) ∨
     (∃ msg, op = .err (some msg) ∧
        executeStep name op input t0 t1 =
          { name := name, status := .failed, input := input,
            output := none, error := some msg, duration := some (t1 - t0) }) ∨
     (op = .err none ∧
        executeStep name op input t0 t1 =
          { name := name, status := .failed, input := input,
            output := none, error := some "Unknown error",
            duration := some (t1 - t0) })) := by
  refine ⟨?_, ?_, ?_, ?_⟩ <;>
    rcases op with out | m | m <;>
      simp [executeStep, errMessage]

/-! ## IP syntax validation (`LocationAgent.isValidIP`)

The validator tests the anchored IPv4 regex
`^(?:(?:25[0-5]|2[0-4][0-9]|[01]?[0-9][0-9]?)\.)\x7b3\x7d(?:25[0-5]|2[0-4][0-9]|[01]?[0-9][0-9]?)$`
and the simplified IPv6 regex
`^(?:[0-9a-fA-F]\x7b1,4\x7d:)\x7b7\x7d[0-9a-fA-F]\x7b1,4\x7d$`.
Both regexes are anchored unions over fixed separators, so they are
embedded by splitting on the separator character and testing each part. -/

def isAsciiDigit (c : Char) : Bool := '0' ≤ c && c ≤ '9'

/-- The regex branch `[01]?[0-9][0-9]?` (1 to 3 characters). -/
def octetPlain : List Char → Bool
  | [a] => isAsciiDigit a
  | [a, b] => isAsciiDigit a && isAsciiDigit b
  | [a, b, c] => (a == '0' || a == '1') && isAsciiDigit b && isAsciiDigit c
  | _ => false

/-- The regex branch `2[0-4][0-9]`. -/
def octet2xx : List Char → Bool
  | ['2', b, c] => ('0' ≤ b && b ≤ '4') && isAsciiDigit c
  | _ => false

/-- The regex branch `25[0-5]`. -/
def octet25x : List Char → Bool
  | ['2', '5', c] => '0' ≤ c && c ≤ '5'
  | _ => false

/-- One IPv4 octet: `25[0-5]|2[0-4][0-9]|[01]?[0-9][0-9]?`. -/
def isOctet (s : List Char) : Bool :=
  octet25x s || octet2xx s || octetPlain s

/-- One IPv6 group: `[0-9a-fA-F]\x7b1,4\x7d`. -/
def isHexGroup (s : List Char) : Bool :=
  decide (1 ≤ s.length) && decide (s.length ≤ 4) &&
    s.all fun c =>
      isAsciiDigit c || ('a' ≤ c && c ≤ 'f') || ('A' ≤ c && c ≤ 'F')

/-- Splitting on a single separator character, with JavaScript
`String.prototype.split` semantics for a one-character separator (also
the semantics of splitting by the literal `\.` / `:` of the anchored
regexes): the empty string yields one empty part, adjacent separators
yield empty parts. -/
def splitOnChar (sep : Char) : List Char → List (List Char)
  | [] => [[]]
  | c :: cs =>
      let r := splitOnChar sep cs
      if c == sep then [] :: r
      else
        match r with
        | [] => [[c]]
        | g :: gs => (c :: g) :: gs

/-- Embedding of `LocationAgent.isValidIP` (`location-agent.ts`):
`ipv4Regex.test(ip) || ipv6Regex.test(ip)`. -/
def isValidIP (s : String) : Bool :=
  (let parts := splitOnChar '.' s.data
   parts.length == 4 && parts.all isOctet) ||
  (let parts := splitOnChar ':' s.data
   parts.length == 8 && parts.all isHexGroup)

/-! ## JavaScript-side helpers -/

/-- Truthiness of an optional JavaScript string: `undefined` (here
`none`) and the empty string are falsy. -/
def strTruthy : Option String → Bool
  | none => false
  | some s => !(s == "")

/-- JavaScript `a || b` for an optional string `a` with a string
default `b`. -/
def jsOrStr (o : Option String) (d : String) : String :=
  match o with
  | some s => if s == "" then d else s
  | none => d

/-- JSON serialization of one string value (`JSON.stringify` of a
string).  Quote, backslash and newline are escaped; the remaining
control-character escapes of full JSON are elided, which is sound here
because no claim inspects serialized text below this granularity. -/
def jsonChar (c : Char) : String :=
  if c == '"' then "\\\""
  else if c == '\\' then "\\\\"
  else if c == '\n' then "\\n"
  else String.singleton c

def jsonStr (s : String) : String :=
  "\"" ++ String.join (s.data.map jsonChar) ++ "\""

/-! ## Collaborator contracts (`GraphQLContext` agents) -/

/-- The `Location` record produced by `LocationAgent.getLocationFromIP`
(zod `LocationSchema`).  JavaScript numbers are embedded as `Int`; the
workflows only copy coordinates around, so fractional values never
influence any claim. -/
structure Location where
  ip : String
  country : String
  region : String
  city : String
  latitude : Int
  longitude : Int
  timezone : String
  isp : Option String := none
  deriving DecidableEq, Repr

/-- `JSON.stringify` of a `Location` value, with the key order in which
`LocationSchema.parse` builds the object; an `undefined` optional `isp`
is omitted, as `JSON.stringify` drops `undefined` properties. -/
def stringifyLocation (l : Location) : String :=
  "\x7b\"ip\":" ++ jsonStr l.ip ++
  ",\"country\":" ++ jsonStr l.country ++
  ",\"region\":" ++ jsonStr l.region ++
  ",\"city\":" ++ jsonStr l.city ++
  ",\"latitude\":" ++ toString l.latitude ++
  ",\"longitude\":" ++ toString l.longitude ++
  ",\"timezone\":" ++ jsonStr l.timezone ++
  (match l.isp with
   | some i => ",\"isp\":" ++ jsonStr i
   | none => "") ++ "\x7d"

/-- Outcome of one collaborator call: the collaborator either returns a
value or throws (with the message of the thrown `Error`, or `none` for a
thrown non-`Error`). -/
inductive CollabResult (α : Type) where
  | ok (val : α)
  | err (msg : Option String)
  deriving DecidableEq, Repr

/-- Trace entry for one collaborator invocation made from inside a step
operation.  A run's trace lists these in invocation order, so "the
collaborator is never called" is the absence of its entry. -/
inductive CollabCall where
  | isValidAddress (ip : String)
  | getLocation (ip : String) (apiKey : String)
  | getWeather (latitude longitude : Int) (apiKey : String)
  | getWeatherByCityName (city : String) (apiKey : String)
  | getRecommendations (latitude longitude : Int)
  | createPlan (destination : String)
  | getLocationInsights (city country : String)
  | getRiskAnalysis (city country : String)
  | getNearbyPlaces (city country : String)
  deriving DecidableEq, Repr

/-- The credential part of `GraphQLContext`: `none` models an unset
binding, `some ""` an empty one; both are falsy at the `!key` checks. -/
structure Ctx where
  IPGEOLOCATION_API_KEY : Option String := none
  OPENWEATHER_API_KEY : Option String := none
  OPENAI_API_KEY : Option String := none
  deriving DecidableEq, Repr

/-! ## Execution store (`executions: Map<string, WorkflowExecution>`) -/

abbrev Store := List (String × WorkflowExecution)

/-- JavaScript `Map.prototype.set`: overwrite in place when the key is
present, append otherwise. -/
def mapSet (s : Store) (k : String) (v : WorkflowExecution) : Store :=
  if s.any (fun p => p.1 == k) then
    s.map fun p => if p.1 == k then (k, v) else p
  else s ++ [(k, v)]

/-- Embedding of `WorkflowEngine.getExecution`:
`this.executions.get(id) || null`. -/
def getExecution (s : Store) (id : String) : Option WorkflowExecution :=
  (s.find? fun p => p.1 == id).map Prod.snd

/-- Embedding of `WorkflowEngine.getAllExecutions`:
`Array.from(this.executions.values())`. -/
def getAllExecutions (s : Store) : List WorkflowExecution :=
  s.map Prod.snd

/-- The terminal-status test of `clearCompletedExecutions`:
`execution.status === 'completed' || execution.status === 'failed'`. -/
def isTerminal (e : WorkflowExecution) : Bool :=
  e.status == .completed || e.status == .failed

/-- Embedding of `WorkflowEngine.clearCompletedExecutions`: delete every
entry whose execution has terminal status. -/
def clearCompletedExecutions (s : Store) : Store :=
  s.filter fun p => !(isTerminal p.2)

/-- Embedding of `WorkflowEngine.generateExecutionId`: the template
literal `` exec_${Date.now()}_${Math.random().toString(36).substr(2, 9)} ``
applied to a `Date.now()` reading `t` and the random base-36 suffix
`r` drawn by `Math.random().toString(36).substr(2, 9)`. -/
def generateExecutionId (t : Nat) (r : String) : String :=
  "exec_" ++ toString t ++ "_" ++ r

/-! ## Shared orchestration helpers

Every workflow ends each return path with
`this.executions.set(executionId, execution); return execution;`, and the
final/short-circuit record construction is the same
`if (step.status === 'completed') ... else ...` /
"copy the failed step's error" pattern in all of them; those two code
shapes are factored below. -/

/-- Result of one workflow invocation: the returned execution, the trace
of collaborator invocations made during the run (in order), and the
engine's `executions` map after the run's final `set`. -/
structure RunOut where
  exec : WorkflowExecution
  calls : List CollabCall
  store : Store
  deriving Repr

/-- The terminal-record construction shared by every workflow's last
step: `completed` with `result = step.output` when the final step
completed, else `failed` with `error = step.error`; `completedAt` is the
ISO timestamp read at finalization. -/
def finalizeFrom (execId startedAt completedAt : String) (steps : List Step)
    (final : Step) : WorkflowExecution :=
  if final.status == .completed then
    { id := execId, status := .completed, steps := steps,
      result := final.output, startedAt := startedAt,
      completedAt := some completedAt }
  else
    { id := execId, status := .failed, steps := steps,
      error := final.error, startedAt := startedAt,
      completedAt := some completedAt }

/-- The short-circuit record construction: when a required step failed
the execution is finalized as `failed` with that step's error copied to
the execution level, and no further step runs. -/
def shortCircuitExec (execId startedAt completedAt : String)
    (steps : List Step) (failedStep : Step) : WorkflowExecution :=
  { id := execId, status := .failed, steps := steps,
    error := failedStep.error, startedAt := startedAt,
    completedAt := some completedAt }

/-- The `Get Location from IP` step operation, shared verbatim by the
location, weather, travel and analysis workflows: fail with
`'IP geolocation API key not configured'` when the credential is falsy,
otherwise call `locationAgent.getLocation(ip, key)` and stringify the
returned location.  Also yields the collaborator calls the operation
made. -/
def getLocationOp (key : Option String) (geo : CollabResult Location)
    (ip : String) : OpResult × List CollabCall :=
  if strTruthy key then
    match geo with
    | .ok loc => (.ok (stringifyLocation loc), [.getLocation ip (key.getD "")])
    | .err m => (.err m, [.getLocation ip (key.getD "")])
  else (.err (some "IP geolocation API key not configured"), [])

/-! ## `executeLocationWorkflow` -/

/-- Environment of one `executeLocationWorkflow` run: the generated
execution id, the ISO timestamps read at start and at finalization, the
`Date.now()` pair of each step, and the geolocation collaborator's
outcome (consulted only if its call happens). -/
structure LocEnv where
  execId : String
  startedAt : String
  completedAt : String
  vT0 : Int
  vT1 : Int
  gT0 : Int
  gT1 : Int
  geo : CollabResult Location

/-- Embedding of `WorkflowEngine.executeLocationWorkflow` (identical in
both revisions).  The `Validate IP Address` operation awaits
`locationAgent.isValidAddress(ip)` — a pure regex test that never
throws — and throws `Invalid IP address: ${ip}` on a falsy result, so
its outcome is computed rather than drawn from the environment.  The
outer `try`/`catch` is dead code: `executeStep` never rejects and the
remaining statements are assignments and array pushes. -/
def executeLocationWorkflow (ctx : Ctx) (store : Store) (ip : String)
    (env : LocEnv) : RunOut :=
  let validateOp : OpResult :=
    if isValidIP ip then .ok ("IP " ++ ip ++ " is valid")
    else .err (some ("Invalid IP address: " ++ ip))
  let validateStep := executeStep "Validate IP Address" validateOp (some ip)
    env.vT0 env.vT1
  if validateStep.status == .failed then
    let e := shortCircuitExec env.execId env.startedAt env.completedAt
      [validateStep] validateStep
    ⟨e, [.isValidAddress ip], mapSet store env.execId e⟩
  else
    let oc := getLocationOp ctx.IPGEOLOCATION_API_KEY env.geo ip
    let locationStep := executeStep "Get Location from IP" oc.1
      (some ("IP: " ++ ip)) env.gT0 env.gT1
    let e := finalizeFrom env.execId env.startedAt env.completedAt
      [validateStep, locationStep] locationStep
    ⟨e, [.isValidAddress ip] ++ oc.2, mapSet store env.execId e⟩

/-! ## `executeWeatherWorkflow` -/

/-- The `Get Weather for Location` step operation: fail with
`'Weather API key not configured'` when the credential is falsy,
otherwise parse the location step's output (the identity round trip on
`loc`) and call `weatherAgent.getWeather(latitude, longitude, key)`.
The collaborator's weather value is kept in serialized form, as the
workflow only ever forwards `JSON.stringify(weather)`. -/
def weatherOp (key : Option String) (weather : CollabResult String)
    (loc : Location) : OpResult × List CollabCall :=
  if strTruthy key then
    match weather with
    | .ok w => (.ok w, [.getWeather loc.latitude loc.longitude (key.getD "")])
    | .err m => (.err m, [.getWeather loc.latitude loc.longitude (key.getD "")])
  else (.err (some "Weather API key not configured"), [])

/-- Environment of one `executeWeatherWorkflow` run. -/
structure WeatherEnv where
  execId : String
  startedAt : String
  completedAt : String
  lT0 : Int
  lT1 : Int
  wT0 : Int
  wT1 : Int
  geo : CollabResult Location
  weather : CollabResult String

/-- Embedding of `WorkflowEngine.executeWeatherWorkflow`.  The branch
structure mirrors the data flow of the source: the weather step can only
run when the location step completed, in which case the resolved
location is available to it via `JSON.parse(locationStep.output!)`. -/
def executeWeatherWorkflow (ctx : Ctx) (store : Store) (ip : String)
    (env : WeatherEnv) : RunOut :=
  if strTruthy ctx.IPGEOLOCATION_API_KEY then
    match env.geo with
    | .ok loc =>
        let locationStep := executeStep "Get Location from IP"
          (.ok (stringifyLocation loc)) (some ("IP: " ++ ip)) env.lT0 env.lT1
        let oc := weatherOp ctx.OPENWEATHER_API_KEY env.weather loc
        let weatherStep := executeStep "Get Weather for Location" oc.1
          (some (jsOrStr locationStep.output "")) env.wT0 env.wT1
        let e := finalizeFrom env.execId env.startedAt env.completedAt
          [locationStep, weatherStep] weatherStep
        ⟨e, [.getLocation ip (ctx.IPGEOLOCATION_API_KEY.getD "")] ++ oc.2,
          mapSet store env.execId e⟩
    | .err m =>
        let locationStep := executeStep "Get Location from IP" (.err m)
          (some ("IP: " ++ ip)) env.lT0 env.lT1
        let e := shortCircuitExec env.execId env.startedAt env.completedAt
          [locationStep] locationStep
        ⟨e, [.getLocation ip (ctx.IPGEOLOCATION_API_KEY.getD "")],
          mapSet store env.execId e⟩
  else
    let locationStep := executeStep "Get Location from IP"
      (.err (some "IP geolocation API key not configured"))
      (some ("IP: " ++ ip)) env.lT0 env.lT1
    let e := shortCircuitExec env.execId env.startedAt env.completedAt
      [locationStep] locationStep
    ⟨e, [], mapSet store env.execId e⟩

/-! ## `executeTravelPlanningWorkflow` -/

/-- Named arguments of `executeTravelPlanningWorkflow`. -/
structure TravelArgs where
  ip : Option String := none
  destination : Option String := none
  startDate : String
  endDate : String

/-- Environment of one `executeTravelPlanningWorkflow` run. -/
structure TravelEnv where
  execId : String
  startedAt : String
  completedAt : String
  lT0 : Int
  lT1 : Int
  wT0 : Int
  wT1 : Int
  rT0 : Int
  rT1 : Int
  pT0 : Int
  pT1 : Int
  geo : CollabResult Location
  weather : CollabResult String
  recs : CollabResult String
  plan : CollabResult String

/-- The expression `destination || (locationData ? `...city, country...` :
dflt)` used for the weather step's input descriptor (`dflt = 'Unknown'`)
and for the plan's destination (`dflt = 'Unknown Destination'`). -/
def travelPlanDest (destination : Option String) (locationData : Option Location)
    (dflt : String) : String :=
  jsOrStr destination
    (match locationData with
     | some loc => loc.city ++ ", " ++ loc.country
     | none => dflt)

/-- The `Get Weather Forecast` step operation: key check, then
`getWeather` on the resolved location, else `getWeatherByCityName` on a
truthy destination, else the `'No location data available for weather
forecast'` error. -/
def travelWeatherOp (key : Option String) (locationData : Option Location)
    (destination : Option String) (weather : CollabResult String) :
    OpResult × List CollabCall :=
  if strTruthy key then
    match locationData with
    | some loc =>
        match weather with
        | .ok w => (.ok w, [.getWeather loc.latitude loc.longitude (key.getD "")])
        | .err m => (.err m, [.getWeather loc.latitude loc.longitude (key.getD "")])
    | none =>
        if strTruthy destination then
          match weather with
          | .ok w => (.ok w, [.getWeatherByCityName (destination.getD "") (key.getD "")])
          | .err m => (.err m, [.getWeatherByCityName (destination.getD "") (key.getD "")])
        else (.err (some "No location data available for weather forecast"), [])
  else (.err (some "Weather API key not configured"), [])

/-- The `Generate Travel Recommendations` step operation:
`travelAgent.getRecommendations(locationData?.latitude || 0,
locationData?.longitude || 0, ['culture', 'food', 'nature'])` — no
credential check.  `x || 0` is the identity on the `Int` embedding of an
existing coordinate (only `0` itself is falsy) and `0` when
`locationData` is `null`. -/
def travelRecsOp (locationData : Option Location) (recs : CollabResult String) :
    OpResult × List CollabCall :=
  let lat := match locationData with | some loc => loc.latitude | none => 0
  let lng := match locationData with | some loc => loc.longitude | none => 0
  match recs with
  | .ok r => (.ok r, [.getRecommendations lat lng])
  | .err m => (.err m, [.getRecommendations lat lng])

/-- The `Create Travel Plan` step operation:
`travelAgent.createPlan(planInput)`, whose `planInput.destination` is
`travelPlanDest destination locationData "Unknown Destination"`. -/
def travelPlanOp (dest : String) (plan : CollabResult String) :
    OpResult × List CollabCall :=
  match plan with
  | .ok p => (.ok p, [.createPlan dest])
  | .err m => (.err m, [.createPlan dest])

/-- `JSON.stringify(\x7b destination, startDate, endDate \x7d)`: the
`destination` key is omitted when `undefined`. -/
def stringifyTravelInput (destination : Option String)
    (startDate endDate : String) : String :=
  "\x7b" ++
  (match destination with
   | some d => "\"destination\":" ++ jsonStr d ++ ","
   | none => "") ++
  "\"startDate\":" ++ jsonStr startDate ++
  ",\"endDate\":" ++ jsonStr endDate ++ "\x7d"

/-- Steps 2–4 of `executeTravelPlanningWorkflow` (the code after the
optional IP-resolution step): weather forecast, recommendations and plan
synthesis run unconditionally — no status check guards them — and the
execution is finalized from the `Create Travel Plan` step alone. -/
def travelRest (ctx : Ctx) (store : Store) (args : TravelArgs) (env : TravelEnv)
    (firstSteps : List Step) (firstCalls : List CollabCall)
    (locationData : Option Location) : RunOut :=
  let w := travelWeatherOp ctx.OPENWEATHER_API_KEY locationData args.destination env.weather
  let weatherStep := executeStep "Get Weather Forecast" w.1
    (some (travelPlanDest args.destination locationData "Unknown")) env.wT0 env.wT1
  let r := travelRecsOp locationData env.recs
  let recommendationsStep := executeStep "Generate Travel Recommendations" r.1
    (some "Default interests: culture, food, nature") env.rT0 env.rT1
  let p := travelPlanOp (travelPlanDest args.destination locationData "Unknown Destination") env.plan
  let travelPlanStep := executeStep "Create Travel Plan" p.1
    (some (stringifyTravelInput args.destination args.startDate args.endDate))
    env.pT0 env.pT1
  let e := finalizeFrom env.execId env.startedAt env.completedAt
    (firstSteps ++ [weatherStep, recommendationsStep, travelPlanStep]) travelPlanStep
  ⟨e, firstCalls ++ w.2 ++ r.2 ++ p.2, mapSet store env.execId e⟩

/-- Embedding of `WorkflowEngine.executeTravelPlanningWorkflow`: the
location step runs only under `if (ip)` and short-circuits the run on
failure; otherwise `locationData` stays `null` and steps 2–4 follow. -/
def executeTravelPlanningWorkflow (ctx : Ctx) (store : Store)
    (args : TravelArgs) (env : TravelEnv) : RunOut :=
  if strTruthy args.ip then
    if strTruthy ctx.IPGEOLOCATION_API_KEY then
      match env.geo with
      | .ok loc =>
          let locationStep := executeStep "Get Location from IP"
            (.ok (stringifyLocation loc)) (some ("IP: " ++ args.ip.getD ""))
            env.lT0 env.lT1
          travelRest ctx store args env [locationStep]
            [.getLocation (args.ip.getD "") (ctx.IPGEOLOCATION_API_KEY.getD "")]
            (some loc)
      | .err m =>
          let locationStep := executeStep "Get Location from IP" (.err m)
            (some ("IP: " ++ args.ip.getD "")) env.lT0 env.lT1
          let e := shortCircuitExec env.execId env.startedAt env.completedAt
            [locationStep] locationStep
          ⟨e, [.getLocation (args.ip.getD "") (ctx.IPGEOLOCATION_API_KEY.getD "")],
            mapSet store env.execId e⟩
    else
      let locationStep := executeStep "Get Location from IP"
        (.err (some "IP geolocation API key not configured"))
        (some ("IP: " ++ args.ip.getD "")) env.lT0 env.lT1
      let e := shortCircuitExec env.execId env.startedAt env.completedAt
        [locationStep] locationStep
      ⟨e, [], mapSet store env.execId e⟩
  else
    travelRest ctx store args env [] [] none

/-! ## `executeLocationAnalysisWorkflow` (first revision of the engine) -/

/-- Named arguments of `executeLocationAnalysisWorkflow`; `purpose`
defaults to `'general'` at the destructuring site, so the embedding
takes the already-defaulted string. -/
structure AnalysisArgs where
  ip : Option String := none
  city : Option String := none
  country : Option String := none
  purpose : String := "general"

/-- The value of the workflow's `locationData` variable: either the
location parsed back from the IP step's output, or the literal
`\x7b city, country, region: '', latitude: 0, longitude: 0 \x7d`
object built from the provided city/country. -/
inductive LocData where
  | fromIP (loc : Location)
  | fromCityCountry (city country : String)
  deriving DecidableEq, Repr

def LocData.city : LocData → String
  | .fromIP loc => loc.city
  | .fromCityCountry c _ => c

def LocData.country : LocData → String
  | .fromIP loc => loc.country
  | .fromCityCountry _ k => k

/-- `JSON.stringify(locationData)` for the insights step's input
descriptor. -/
def stringifyLocData : LocData → String
  | .fromIP loc => stringifyLocation loc
  | .fromCityCountry c k =>
      "\x7b\"city\":" ++ jsonStr c ++ ",\"country\":" ++ jsonStr k ++
      ",\"region\":\"\",\"latitude\":0,\"longitude\":0\x7d"

/-- A `LocationAnalysis` value returned by
`aiLocationAgent.getLocationInsights` (zod `LocationAnalysisSchema`).
Each field holds the JSON serialization of the corresponding subobject;
the schema makes every field an object or array, hence truthy, which is
what the compile step's `||` fallbacks test. -/
structure LocationAnalysisV where
  location : String
  insights : String
  nearbyPlaces : String
  recommendations : String
  riskAssessment : String
  deriving DecidableEq, Repr

/-- `JSON.stringify` of a `LocationAnalysisV`, with the schema's key
order. -/
def stringifyAnalysisValue (v : LocationAnalysisV) : String :=
  "\x7b\"location\":" ++ v.location ++
  ",\"insights\":" ++ v.insights ++
  ",\"nearbyPlaces\":" ++ v.nearbyPlaces ++
  ",\"recommendations\":" ++ v.recommendations ++
  ",\"riskAssessment\":" ++ v.riskAssessment ++ "\x7d"

/-- Environment of one `executeLocationAnalysisWorkflow` run. -/
structure AnalysisEnv where
  execId : String
  startedAt : String
  completedAt : String
  analysisDate : String
  lT0 : Int
  lT1 : Int
  iT0 : Int
  iT1 : Int
  rT0 : Int
  rT1 : Int
  nT0 : Int
  nT1 : Int
  cT0 : Int
  cT1 : Int
  geo : CollabResult Location
  insights : CollabResult LocationAnalysisV
  risk : CollabResult String
  nearby : CollabResult String

/-- The `Generate Location Insights` step operation: OpenAI credential
check, then `aiLocationAgent.getLocationInsights(...)` and
`JSON.stringify` of its result.  The third component is the parsed
insights value the compile step recovers from `insightsStep.output`
(`none` when the step did not complete). -/
def insightsOp (key : Option String) (res : CollabResult LocationAnalysisV)
    (ld : LocData) : OpResult × List CollabCall × Option LocationAnalysisV :=
  if strTruthy key then
    match res with
    | .ok v => (.ok (stringifyAnalysisValue v), [.getLocationInsights ld.city ld.country], some v)
    | .err m => (.err m, [.getLocationInsights ld.city ld.country], none)
  else (.err (some "OpenAI API key not configured"), [], none)

/-- The `Analyze Location Risks` step operation. -/
def riskAnalysisOp (key : Option String) (res : CollabResult String)
    (ld : LocData) : OpResult × List CollabCall :=
  if strTruthy key then
    match res with
    | .ok s => (.ok s, [.getRiskAnalysis ld.city ld.country])
    | .err m => (.err m, [.getRiskAnalysis ld.city ld.country])
  else (.err (some "OpenAI API key not configured"), [])

/-- The `Find Nearby Places` step operation. -/
def nearbyPlacesOp (key : Option String) (res : CollabResult String)
    (ld : LocData) : OpResult × List CollabCall :=
  if strTruthy key then
    match res with
    | .ok s => (.ok s, [.getNearbyPlaces ld.city ld.country])
    | .err m => (.err m, [.getNearbyPlaces ld.city ld.country])
  else (.err (some "OpenAI API key not configured"), [])

/-- The `Compile Comprehensive Analysis` operation's output.  It embeds
`JSON.parse(insightsStep.output || '\x7b\x7d')`,
`JSON.parse(riskStep.output || '\x7b\x7d')` and
`JSON.parse(nearbyStep.output || '[]')`: a missing output of a failed
predecessor is replaced by the empty structure before parsing, and each
`insights.X || d` fallback selects the insights field when the insights
step completed (schema fields are objects/arrays, hence truthy) and `d`
when it parsed the `'\x7b\x7d'` default.  The operation itself only
parses, selects and stringifies, so it always resolves. -/
def compileAnalysisOutput (ld : LocData) (insightsVal : Option LocationAnalysisV)
    (riskOut nearbyOut : Option String) (analysisDate purpose : String) : String :=
  "\x7b\"location\":" ++ stringifyLocData ld ++
  ",\"insights\":" ++
    (match insightsVal with | some v => v.insights | none => "\x7b\x7d") ++
  ",\"riskAssessment\":" ++
    (match insightsVal with | some v => v.riskAssessment | none => riskOut.getD "\x7b\x7d") ++
  ",\"nearbyPlaces\":" ++
    (match insightsVal with | some v => v.nearbyPlaces | none => nearbyOut.getD "[]") ++
  ",\"recommendations\":" ++
    (match insightsVal with | some v => v.recommendations | none => "[]") ++
  ",\"analysisDate\":" ++ jsonStr analysisDate ++
  ",\"purpose\":" ++ jsonStr purpose ++ "\x7d"

/-- Steps 2–5 of `executeLocationAnalysisWorkflow` (the code after
`locationData` has been determined): insights, risk and nearby-places
run unconditionally — no status check guards them — and the execution is
finalized from the `Compile Comprehensive Analysis` step alone. -/
def analysisRest (ctx : Ctx) (store : Store) (args : AnalysisArgs)
    (env : AnalysisEnv) (firstSteps : List Step) (firstCalls : List CollabCall)
    (ld : LocData) : RunOut :=
  let i := insightsOp ctx.OPENAI_API_KEY env.insights ld
  let insightsStep := executeStep "Generate Location Insights" i.1
    (some ("\x7b\"location\":" ++ stringifyLocData ld ++
           ",\"purpose\":" ++ jsonStr args.purpose ++ "\x7d"))
    env.iT0 env.iT1
  let r := riskAnalysisOp ctx.OPENAI_API_KEY env.risk ld
  let riskStep := executeStep "Analyze Location Risks" r.1
    (some ("Location: " ++ ld.city ++ ", " ++ ld.country)) env.rT0 env.rT1
  let n := nearbyPlacesOp ctx.OPENAI_API_KEY env.nearby ld
  let nearbyStep := executeStep "Find Nearby Places" n.1
    (some ("Location: " ++ ld.city ++ ", " ++ ld.country ++ ", Radius: 50km"))
    env.nT0 env.nT1
  let analysisStep := executeStep "Compile Comprehensive Analysis"
    (.ok (compileAnalysisOutput ld i.2.2 riskStep.output nearbyStep.output
      env.analysisDate args.purpose))
    (some "Compiling all analysis results") env.cT0 env.cT1
  let e := finalizeFrom env.execId env.startedAt env.completedAt
    (firstSteps ++ [insightsStep, riskStep, nearbyStep, analysisStep]) analysisStep
  ⟨e, firstCalls ++ i.2.1 ++ r.2 ++ n.2, mapSet store env.execId e⟩

/-- Embedding of `WorkflowEngine.executeLocationAnalysisWorkflow`:
location from IP when `ip && (!city || !country)` (short-circuiting on
failure), else the literal city/country object when `city && country`,
else an immediate `failed` execution with zero steps and the
`'Either IP address or city/country must be provided'` error. -/
def executeLocationAnalysisWorkflow (ctx : Ctx) (store : Store)
    (args : AnalysisArgs) (env : AnalysisEnv) : RunOut :=
  if strTruthy args.ip && (!strTruthy args.city || !strTruthy args.country) then
    if strTruthy ctx.IPGEOLOCATION_API_KEY then
      match env.geo with
      | .ok loc =>
          let locationStep := executeStep "Get Location from IP"
            (.ok (stringifyLocation loc)) (some ("IP: " ++ args.ip.getD ""))
            env.lT0 env.lT1
          analysisRest ctx store args env [locationStep]
            [.getLocation (args.ip.getD "") (ctx.IPGEOLOCATION_API_KEY.getD "")]
            (.fromIP loc)
      | .err m =>
          let locationStep := executeStep "Get Location from IP" (.err m)
            (some ("IP: " ++ args.ip.getD "")) env.lT0 env.lT1
          let e := shortCircuitExec env.execId env.startedAt env.completedAt
            [locationStep] locationStep
          ⟨e, [.getLocation (args.ip.getD "") (ctx.IPGEOLOCATION_API_KEY.getD "")],
            mapSet store env.execId e⟩
    else
      let locationStep := executeStep "Get Location from IP"
        (.err (some "IP geolocation API key not configured"))
        (some ("IP: " ++ args.ip.getD "")) env.lT0 env.lT1
      let e := shortCircuitExec env.execId env.startedAt env.completedAt
        [locationStep] locationStep
      ⟨e, [], mapSet store env.execId e⟩
  else if strTruthy args.city && strTruthy args.country then
    analysisRest ctx store args env [] []
      (.fromCityCountry (args.city.getD "") (args.country.getD ""))
  else
    let e : WorkflowExecution :=
      { id := env.execId, status := .failed, steps := [],
        error := some "Either IP address or city/country must be provided",
        startedAt := env.startedAt, completedAt := some env.completedAt }
    ⟨e, [], mapSet store env.execId e⟩

/-! ## Small characterization lemmas used across the claim proofs -/

/-- Status an operation outcome settles to. -/
def opStatus : OpResult → Status
  | .ok _ => .completed
  | .err _ => .failed

/-- Output an operation outcome yields. -/
def opOutput : OpResult → Option String
  | .ok out => some out
  | .err _ => none

/-- Error message an operation outcome yields. -/
def opError : OpResult → Option String
  | .ok _ => none
  | .err m => some (errMessage m)

theorem executeStep_status (n : String) (op : OpResult) (i : Option String)
    (t0 t1 : Int) : (executeStep n op i t0 t1).status = opStatus op := by
  cases op <;> rfl

theorem executeStep_output (n : String) (op : OpResult) (i : Option String)
    (t0 t1 : Int) : (executeStep n op i t0 t1).output = opOutput op := by
  cases op <;> rfl

theorem executeStep_error (n : String) (op : OpResult) (i : Option String)
    (t0 t1 : Int) : (executeStep n op i t0 t1).error = opError op := by
  cases op <;> rfl

theorem executeStep_name (n : String) (op : OpResult) (i : Option String)
    (t0 t1 : Int) : (executeStep n op i t0 t1).name = n := by
  cases op <;> rfl

theorem executeStep_duration (n : String) (op : OpResult) (i : Option String)
    (t0 t1 : Int) : (executeStep n op i t0 t1).duration = some (t1 - t0) := by
  cases op <;> rfl

/-! ## Sample inputs used by the witnesses -/

/-- A context with every credential configured. -/
def sampleCtx : Ctx :=
  { IPGEOLOCATION_API_KEY := some "geo-key",
    OPENWEATHER_API_KEY := some "weather-key",
    OPENAI_API_KEY := some "openai-key" }

/-- A concrete geolocation collaborator result. -/
def sampleLoc : Location :=
  { ip := "8.8.8.8", country := "United States", region := "California",
    city := "Mountain View", latitude := 37, longitude := -122,
    timezone := "America/Los_Angeles", isp := none }

/-! ## C2: location workflow, valid IP, healthy collaborator -/

/-- C2: for every syntactically valid IP address, when the geolocation
credential is configured and the collaborator resolves a location,
`executeLocationWorkflow` returns an execution with status `completed`,
exactly the two steps `Validate IP Address` and `Get Location from IP`
in that order, both `completed`, and whose result is the serialized
form of the collaborator's returned location. -/
theorem executeLocationWorkflow_valid_completed (ctx : Ctx) (store : Store)
    (ip : String) (env : LocEnv) (loc : Location)
    (hv : isValidIP ip = true)
    (hk : strTruthy ctx.IPGEOLOCATION_API_KEY = true)
    (hg : env.geo = .ok loc) :
    (executeLocationWorkflow ctx store ip env).exec.status = .completed ∧
    (executeLocationWorkflow ctx store ip env).exec.steps.map Step.name =
      ["Validate IP Address", "Get Location from IP"] ∧
    (∀ st ∈ (executeLocationWorkflow ctx store ip env).exec.steps,
      st.status = .completed) ∧
    (executeLocationWorkflow ctx store ip env).exec.result =
      some (stringifyLocation loc) := by
  simp [executeLocationWorkflow, executeStep, getLocationOp, finalizeFrom,
    shortCircuitExec, hv, hk, hg]

/-- C2 witness: a concrete successful run on `8.8.8.8`. -/
theorem executeLocationWorkflow_valid_completed_witness :
    (executeLocationWorkflow sampleCtx [] "8.8.8.8"
      { execId := "exec_1_a", startedAt := "s", completedAt := "c",
        vT0 := 0, vT1 := 1, gT0 := 1, gT1 := 3,
        geo := .ok sampleLoc }).exec.status = .completed ∧
    (executeLocationWorkflow sampleCtx [] "8.8.8.8"
      { execId := "exec_1_a", startedAt := "s", completedAt := "c",
        vT0 := 0, vT1 := 1, gT0 := 1, gT1 := 3,
        geo := .ok sampleLoc }).exec.steps.map Step.name =
      ["Validate IP Address", "Get Location from IP"] ∧
    (∀ st ∈ (executeLocationWorkflow sampleCtx [] "8.8.8.8"
      { execId := "exec_1_a", startedAt := "s", completedAt := "c",
        vT0 := 0, vT1 := 1, gT0 := 1, gT1 := 3,
        geo := .ok sampleLoc }).exec.steps, st.status = .completed) ∧
    (executeLocationWorkflow sampleCtx [] "8.8.8.8"
      { execId := "exec_1_a", startedAt := "s", completedAt := "c",
        vT0 := 0, vT1 := 1, gT0 := 1, gT1 := 3,
        geo := .ok sampleLoc }).exec.result = some (stringifyLocation sampleLoc) :=
  executeLocationWorkflow_valid_completed sampleCtx [] "8.8.8.8" _ sampleLoc
    (by decide) (by decide) rfl

/-! ## C3: location workflow, invalid IP -/

/-- C3: for every IP string that fails syntactic validation,
`executeLocationWorkflow` returns a `failed` execution whose steps array
is exactly the one failed `Validate IP Address` step, the execution
error equals that step's error, the `Get Location from IP` step never
appears, and the geolocation collaborator is never called (the call
trace holds only the `isValidAddress` validation call). -/
theorem executeLocationWorkflow_invalid_failed (ctx : Ctx) (store : Store)
    (ip : String) (env : LocEnv)
    (hv : isValidIP ip = false) :
    (executeLocationWorkflow ctx store ip env).exec.status = .failed ∧
    (executeLocationWorkflow ctx store ip env).exec.steps =
      [{ name := "Validate IP Address", status := .failed, input := some ip,
         output := none, error := some ("Invalid IP address: " ++ ip),
         duration := some (env.vT1 - env.vT0) }] ∧
    (executeLocationWorkflow ctx store ip env).exec.error =
      some ("Invalid IP address: " ++ ip) ∧
    (∀ st ∈ (executeLocationWorkflow ctx store ip env).exec.steps,
      st.name ≠ "Get Location from IP") ∧
    (executeLocationWorkflow ctx store ip env).calls = [.isValidAddress ip] ∧
    (∀ ipx kx, CollabCall.getLocation ipx kx ∉
      (executeLocationWorkflow ctx store ip env).calls) := by
  simp [executeLocationWorkflow, executeStep, errMessage, finalizeFrom,
    shortCircuitExec, hv]

/-- C3 witness: a concrete run on the invalid string
`999.999.999.999`. -/
theorem executeLocationWorkflow_invalid_failed_witness :
    (executeLocationWorkflow sampleCtx [] "999.999.999.999"
      { execId := "exec_1_a", startedAt := "s", completedAt := "c",
        vT0 := 0, vT1 := 1, gT0 := 1, gT1 := 3,
        geo := .ok sampleLoc }).exec.status = .failed ∧
    (executeLocationWorkflow sampleCtx [] "999.999.999.999"
      { execId := "exec_1_a", startedAt := "s", completedAt := "c",
        vT0 := 0, vT1 := 1, gT0 := 1, gT1 := 3,
        geo := .ok sampleLoc }).exec.steps =
      [{ name := "Validate IP Address", status := .failed,
         input := some "999.999.999.999", output := none,
         error := some ("Invalid IP address: " ++ "999.999.999.999"),
         duration := some (1 - 0) }] ∧
    (executeLocationWorkflow sampleCtx [] "999.999.999.999"
      { execId := "exec_1_a", startedAt := "s", completedAt := "c",
        vT0 := 0, vT1 := 1, gT0 := 1, gT1 := 3,
        geo := .ok sampleLoc }).exec.error =
      some ("Invalid IP address: " ++ "999.999.999.999") ∧
    (∀ st ∈ (executeLocationWorkflow sampleCtx [] "999.999.999.999"
      { execId := "exec_1_a", startedAt := "s", completedAt := "c",
        vT0 := 0, vT1 := 1, gT0 := 1, gT1 := 3,
        geo := .ok sampleLoc }).exec.steps, st.name ≠ "Get Location from IP") ∧
    (executeLocationWorkflow sampleCtx [] "999.999.999.999"
      { execId := "exec_1_a", startedAt := "s", completedAt := "c",
        vT0 := 0, vT1 := 1, gT0 := 1, gT1 := 3,
        geo := .ok sampleLoc }).calls = [.isValidAddress "999.999.999.999"] ∧
    (∀ ipx kx, CollabCall.getLocation ipx kx ∉
      (executeLocationWorkflow sampleCtx [] "999.999.999.999"
        { execId := "exec_1_a", startedAt := "s", completedAt := "c",
          vT0 := 0, vT1 := 1, gT0 := 1, gT1 := 3,
          geo := .ok sampleLoc }).calls) :=
  executeLocationWorkflow_invalid_failed sampleCtx [] "999.999.999.999" _
    (by decide)

/-! ## C4: weather workflow, failing geolocation step -/

/-- C4: for every IP, when the geolocation step of
`executeWeatherWorkflow` fails — that is, when the credential is falsy
or the collaborator throws — the returned execution is `failed`, records
exactly one step (`Get Location from IP`, failed), copies that step's
error verbatim to the execution level, and the weather step is never
executed: no weather collaborator call appears in the trace.  In the
missing-credential case in particular, the execution error is a message
containing `"API key not configured"`. -/
theorem executeWeatherWorkflow_geoFail (ctx : Ctx) (store : Store)
    (ip : String) (env : WeatherEnv)
    (hfail : strTruthy ctx.IPGEOLOCATION_API_KEY = false ∨
      ∃ m, env.geo = .err m) :
    (executeWeatherWorkflow ctx store ip env).exec.status = .failed ∧
    (∃ st, (executeWeatherWorkflow ctx store ip env).exec.steps = [st] ∧
      st.name = "Get Location from IP" ∧ st.status = .failed ∧
      (executeWeatherWorkflow ctx store ip env).exec.error = st.error) ∧
    (∀ la lo k, CollabCall.getWeather la lo k ∉
      (executeWeatherWorkflow ctx store ip env).calls) ∧
    (∀ ci k, CollabCall.getWeatherByCityName ci k ∉
      (executeWeatherWorkflow ctx store ip env).calls) ∧
    (strTruthy ctx.IPGEOLOCATION_API_KEY = false →
      ∃ msg, (executeWeatherWorkflow ctx store ip env).exec.error = some msg ∧
        "API key not configured".data <:+: msg.data) := by
  rcases hfail with hk | ⟨m, hg⟩
  · refine ⟨?_, ?_, ?_, ?_, ?_⟩ <;>
      simp [executeWeatherWorkflow, executeStep, errMessage, shortCircuitExec, hk]
    · exact ⟨"IP geolocation ".data, [], by decide⟩
  · rcases hk : strTruthy ctx.IPGEOLOCATION_API_KEY <;>
      refine ⟨?_, ?_, ?_, ?_, ?_⟩ <;>
        simp [executeWeatherWorkflow, executeStep, errMessage, shortCircuitExec,
          hk, hg]
    · exact ⟨"IP geolocation ".data, [], by decide⟩

/-- C4 witness: the scenario `executeWeatherWorkflow("8.8.8.8")` with
the geolocation credential missing. -/
theorem executeWeatherWorkflow_geoFail_witness :
    (executeWeatherWorkflow { OPENWEATHER_API_KEY := some "weather-key" } []
      "8.8.8.8"
      { execId := "exec_1_a", startedAt := "s", completedAt := "c",
        lT0 := 0, lT1 := 1, wT0 := 1, wT1 := 3,
        geo := .err none, weather := .ok "w" }).exec.status = .failed ∧
    (∃ st, (executeWeatherWorkflow { OPENWEATHER_API_KEY := some "weather-key" } []
      "8.8.8.8"
      { execId := "exec_1_a", startedAt := "s", completedAt := "c",
        lT0 := 0, lT1 := 1, wT0 := 1, wT1 := 3,
        geo := .err none, weather := .ok "w" }).exec.steps = [st] ∧
      st.name = "Get Location from IP" ∧ st.status = .failed ∧
      (executeWeatherWorkflow { OPENWEATHER_API_KEY := some "weather-key" } []
        "8.8.8.8"
        { execId := "exec_1_a", startedAt := "s", completedAt := "c",
          lT0 := 0, lT1 := 1, wT0 := 1, wT1 := 3,
          geo := .err none, weather := .ok "w" }).exec.error = st.error) ∧
    (∀ la lo k, CollabCall.getWeather la lo k ∉
      (executeWeatherWorkflow { OPENWEATHER_API_KEY := some "weather-key" } []
        "8.8.8.8"
        { execId := "exec_1_a", startedAt := "s", completedAt := "c",
          lT0 := 0, lT1 := 1, wT0 := 1, wT1 := 3,
          geo := .err none, weather := .ok "w" }).calls) ∧
    (∀ ci k, CollabCall.getWeatherByCityName ci k ∉
      (executeWeatherWorkflow { OPENWEATHER_API_KEY := some "weather-key" } []
        "8.8.8.8"
        { execId := "exec_1_a", startedAt := "s", completedAt := "c",
          lT0 := 0, lT1 := 1, wT0 := 1, wT1 := 3,
          geo := .err none, weather := .ok "w" }).calls) ∧
    (strTruthy ({ OPENWEATHER_API_KEY := some "weather-key" } : Ctx).IPGEOLOCATION_API_KEY = false →
      ∃ msg, (executeWeatherWorkflow { OPENWEATHER_API_KEY := some "weather-key" } []
        "8.8.8.8"
        { execId := "exec_1_a", startedAt := "s", completedAt := "c",
          lT0 := 0, lT1 := 1, wT0 := 1, wT1 := 3,
          geo := .err none, weather := .ok "w" }).exec.error = some msg ∧
        "API key not configured".data <:+: msg.data) :=
  executeWeatherWorkflow_geoFail { OPENWEATHER_API_KEY := some "weather-key" } []
    "8.8.8.8" _ (Or.inl (by decide))

/-! ## C5: best-effort intermediate steps never short-circuit -/

/-- C5: in `executeTravelPlanningWorkflow` and in the AI
location-analysis workflow, failure of an intermediate best-effort step
(weather forecast, recommendations; AI insights, risk and nearby-places
steps) is recorded at the step level but does not short-circuit the
execution: on every run that gets past the required location step, all
subsequent steps appear in the step list whatever the intermediate
outcomes were, the execution's terminal status, result and error are
functions of the final synthesis step's outcome alone (for the analysis
workflow the compile step always completes), every failed step carries
its error, and the final step consumes a failed predecessor's missing
output as the empty-structure defaults built into
`compileAnalysisOutput` instead of faulting. -/
theorem bestEffortSteps_no_shortCircuit :
    (∀ (ctx : Ctx) (store : Store) (args : TravelArgs) (env : TravelEnv),
      (strTruthy args.ip = false ∨
        (strTruthy ctx.IPGEOLOCATION_API_KEY = true ∧ ∃ loc, env.geo = .ok loc)) →
      (executeTravelPlanningWorkflow ctx store args env).exec.steps.map Step.name =
        (if strTruthy args.ip then ["Get Location from IP"] else []) ++
          ["Get Weather Forecast", "Generate Travel Recommendations",
           "Create Travel Plan"] ∧
      (executeTravelPlanningWorkflow ctx store args env).exec.status =
        (match env.plan with | .ok _ => .completed | .err _ => .failed) ∧
      (executeTravelPlanningWorkflow ctx store args env).exec.result =
        (match env.plan with | .ok p => some p | .err _ => none) ∧
      (executeTravelPlanningWorkflow ctx store args env).exec.error =
        (match env.plan with | .ok _ => none | .err m => some (errMessage m)) ∧
      (∀ st ∈ (executeTravelPlanningWorkflow ctx store args env).exec.steps,
        st.status = .failed → st.error.isSome)) ∧
    (∀ (ctx : Ctx) (store : Store) (args : AnalysisArgs) (env : AnalysisEnv),
      (((strTruthy args.ip && (!strTruthy args.city || !strTruthy args.country)) = true ∧
          strTruthy ctx.IPGEOLOCATION_API_KEY = true ∧ ∃ loc, env.geo = .ok loc) ∨
        ((strTruthy args.ip && (!strTruthy args.city || !strTruthy args.country)) = false ∧
          (strTruthy args.city && strTruthy args.country) = true)) →
      (executeLocationAnalysisWorkflow ctx store args env).exec.steps.map Step.name =
        (if strTruthy args.ip && (!strTruthy args.city || !strTruthy args.country)
          then ["Get Location from IP"] else []) ++
          ["Generate Location Insights", "Analyze Location Risks",
           "Find Nearby Places", "Compile Comprehensive Analysis"] ∧
      (executeLocationAnalysisWorkflow ctx store args env).exec.status = .completed ∧
      (executeLocationAnalysisWorkflow ctx store args env).exec.error = none ∧
      (∃ ld, (executeLocationAnalysisWorkflow ctx store args env).exec.result =
        some (compileAnalysisOutput ld
          ((insightsOp ctx.OPENAI_API_KEY env.insights ld).2.2)
          (opOutput (riskAnalysisOp ctx.OPENAI_API_KEY env.risk ld).1)
          (opOutput (nearbyPlacesOp ctx.OPENAI_API_KEY env.nearby ld).1)
          env.analysisDate args.purpose)) ∧
      (∀ st ∈ (executeLocationAnalysisWorkflow ctx store args env).exec.steps,
        st.status = .failed → st.error.isSome)) := by
  constructor
  · intro ctx store args env hloc
    rcases hloc with hip | ⟨hk, ⟨loc, hg⟩⟩
    · rcases hp : env.plan with p | pm <;>
      rcases hw : env.weather with w | wm <;>
      rcases hr : env.recs with rr | rm <;>
      rcases hwk : strTruthy ctx.OPENWEATHER_API_KEY <;>
      rcases hd : strTruthy args.destination <;>
        simp [executeTravelPlanningWorkflow, travelRest, travelWeatherOp,
          travelRecsOp, travelPlanOp, executeStep, finalizeFrom, errMessage,
          hip, hp, hw, hr, hwk, hd]
    · rcases hip : strTruthy args.ip <;>
      rcases hp : env.plan with p | pm <;>
      rcases hw : env.weather with w | wm <;>
      rcases hr : env.recs with rr | rm <;>
      rcases hwk : strTruthy ctx.OPENWEATHER_API_KEY <;>
      rcases hd : strTruthy args.destination <;>
        simp [executeTravelPlanningWorkflow, travelRest, travelWeatherOp,
          travelRecsOp, travelPlanOp, executeStep, finalizeFrom, errMessage,
          hip, hk, hg, hp, hw, hr, hwk, hd]
  · intro ctx store args env hloc
    rcases hloc with ⟨hcond, hk, ⟨loc, hg⟩⟩ | ⟨hcond, hck⟩
    · rcases hi : env.insights with iv | im <;>
      rcases hr : env.risk with rv | rm <;>
      rcases hn : env.nearby with nv | nm <;>
      rcases hok : strTruthy ctx.OPENAI_API_KEY <;>
        simp [executeLocationAnalysisWorkflow, analysisRest, insightsOp,
          riskAnalysisOp, nearbyPlacesOp, executeStep, finalizeFrom, errMessage,
          opOutput, hcond, hk, hg, hi, hr, hn, hok] <;>
        exact ⟨_, rfl⟩
    · rcases hi : env.insights with iv | im <;>
      rcases hr : env.risk with rv | rm <;>
      rcases hn : env.nearby with nv | nm <;>
      rcases hok : strTruthy ctx.OPENAI_API_KEY <;>
        simp [executeLocationAnalysisWorkflow, analysisRest, insightsOp,
          riskAnalysisOp, nearbyPlacesOp, executeStep, finalizeFrom, errMessage,
          opOutput, hcond, hck, hi, hr, hn, hok] <;>
        exact ⟨_, rfl⟩

/-- Arguments of the travel-planning witness run. -/
def sampleTravelArgs : TravelArgs :=
  { destination := some "Paris, France",
    startDate := "2024-06-01", endDate := "2024-06-05" }

/-- Environment of the travel-planning witness run: the weather and
recommendations collaborators throw, the plan synthesis succeeds. -/
def sampleTravelEnv : TravelEnv :=
  { execId := "exec_1_a", startedAt := "s", completedAt := "c",
    lT0 := 0, lT1 := 1, wT0 := 1, wT1 := 2, rT0 := 2, rT1 := 3,
    pT0 := 3, pT1 := 4,
    geo := .err none, weather := .err (some "boom"),
    recs := .err none, plan := .ok "plan-json" }

/-- Arguments of the analysis witness run. -/
def sampleAnalysisArgs : AnalysisArgs :=
  { city := some "Paris", country := some "France" }

/-- Environment of the analysis witness run: all three AI collaborators
throw. -/
def sampleAnalysisEnv : AnalysisEnv :=
  { execId := "exec_1_b", startedAt := "s", completedAt := "c",
    analysisDate := "d",
    lT0 := 0, lT1 := 1, iT0 := 1, iT1 := 2, rT0 := 2, rT1 := 3,
    nT0 := 3, nT1 := 4, cT0 := 4, cT1 := 5,
    geo := .err none, insights := .err (some "ai down"),
    risk := .err none, nearby := .err (some "ai down") }

/-- C5 witness: with no IP, a throwing weather collaborator and a
throwing recommendations collaborator, the travel run still completes
from the plan step; with every AI collaborator throwing, the analysis
run still completes from the compile step. -/
theorem bestEffortSteps_no_shortCircuit_witness :
    (executeTravelPlanningWorkflow sampleCtx [] sampleTravelArgs
      sampleTravelEnv).exec.status = .completed ∧
    (executeTravelPlanningWorkflow sampleCtx [] sampleTravelArgs
      sampleTravelEnv).exec.steps.map Step.name =
      ["Get Weather Forecast", "Generate Travel Recommendations",
       "Create Travel Plan"] ∧
    (executeLocationAnalysisWorkflow sampleCtx [] sampleAnalysisArgs
      sampleAnalysisEnv).exec.status = .completed ∧
    (executeLocationAnalysisWorkflow sampleCtx [] sampleAnalysisArgs
      sampleAnalysisEnv).exec.steps.map Step.name =
      ["Generate Location Insights", "Analyze Location Risks",
       "Find Nearby Places", "Compile Comprehensive Analysis"] := by
  have ht := bestEffortSteps_no_shortCircuit.1 sampleCtx [] sampleTravelArgs
    sampleTravelEnv (Or.inl (by decide))
  have ha := bestEffortSteps_no_shortCircuit.2 sampleCtx [] sampleAnalysisArgs
    sampleAnalysisEnv (Or.inr ⟨by decide, by decide⟩)
  refine ⟨?_, ?_, ha.2.1, ?_⟩
  · exact ht.2.1
  · have := ht.1
    simpa [sampleTravelArgs] using this
  · have := ha.1
    simpa [sampleAnalysisArgs] using this

/-! ## C6: terminal executions carry exactly one of result/error -/

/-- The record invariant of a returned execution: its status is
terminal, the result is populated exactly when it completed, the error
exactly when it failed, and the completion timestamp is set. -/
def terminalRecordOk (e : WorkflowExecution) : Prop :=
  (e.status = .completed ∨ e.status = .failed) ∧
  (e.status = .completed → e.result.isSome ∧ e.error = none) ∧
  (e.status = .failed → e.result = none ∧ e.error.isSome) ∧
  e.completedAt.isSome

/-- C6: every execution returned by any of the four workflow operations
is terminal with `completedAt` set and carries exactly one of
result/error — the result iff it completed, the error iff it failed.
(The pending/running half of the claim is vacuous on returned records:
no returned execution is non-terminal.) -/
theorem executions_terminalRecordOk :
    (∀ (ctx : Ctx) (store : Store) (ip : String) (env : LocEnv),
      terminalRecordOk (executeLocationWorkflow ctx store ip env).exec) ∧
    (∀ (ctx : Ctx) (store : Store) (ip : String) (env : WeatherEnv),
      terminalRecordOk (executeWeatherWorkflow ctx store ip env).exec) ∧
    (∀ (ctx : Ctx) (store : Store) (args : TravelArgs) (env : TravelEnv),
      terminalRecordOk (executeTravelPlanningWorkflow ctx store args env).exec) ∧
    (∀ (ctx : Ctx) (store : Store) (args : AnalysisArgs) (env : AnalysisEnv),
      terminalRecordOk (executeLocationAnalysisWorkflow ctx store args env).exec) := by
  refine ⟨?_, ?_, ?_, ?_⟩
  · intro ctx store ip env
    rcases hv : isValidIP ip <;>
    rcases hk : strTruthy ctx.IPGEOLOCATION_API_KEY <;>
    rcases hg : env.geo with loc | m <;>
      simp [terminalRecordOk, executeLocationWorkflow, executeStep, getLocationOp,
        finalizeFrom, shortCircuitExec, errMessage, hv, hk, hg]
  · intro ctx store ip env
    rcases hk : strTruthy ctx.IPGEOLOCATION_API_KEY <;>
    rcases hg : env.geo with loc | m <;>
    rcases hwk : strTruthy ctx.OPENWEATHER_API_KEY <;>
    rcases hw : env.weather with w | wm <;>
      simp [terminalRecordOk, executeWeatherWorkflow, executeStep, weatherOp,
        finalizeFrom, shortCircuitExec, errMessage, hk, hg, hwk, hw]
  · intro ctx store args env
    rcases hip : strTruthy args.ip <;>
    rcases hk : strTruthy ctx.IPGEOLOCATION_API_KEY <;>
    rcases hg : env.geo with loc | m <;>
    rcases hp : env.plan with p | pm <;>
      simp [terminalRecordOk, executeTravelPlanningWorkflow, travelRest,
        travelWeatherOp, travelRecsOp, travelPlanOp, executeStep, finalizeFrom,
        shortCircuitExec, errMessage, hip, hk, hg, hp]
  · intro ctx store args env
    rcases hcond : strTruthy args.ip && (!strTruthy args.city || !strTruthy args.country) <;>
    rcases hck : strTruthy args.city && strTruthy args.country <;>
    rcases hk : strTruthy ctx.IPGEOLOCATION_API_KEY <;>
    rcases hg : env.geo with loc | m <;>
      simp [terminalRecordOk, executeLocationAnalysisWorkflow, analysisRest,
        insightsOp, riskAnalysisOp, nearbyPlacesOp, executeStep, finalizeFrom,
        shortCircuitExec, errMessage, hcond, hck, hk, hg]

/-! ## C7: step-count, call order and durations -/

/-- Non-decreasing wall clock across the two readings of each location
workflow step. -/
def LocEnv.timeMono (env : LocEnv) : Prop :=
  env.vT0 ≤ env.vT1 ∧ env.gT0 ≤ env.gT1

def WeatherEnv.timeMono (env : WeatherEnv) : Prop :=
  env.lT0 ≤ env.lT1 ∧ env.wT0 ≤ env.wT1

def TravelEnv.timeMono (env : TravelEnv) : Prop :=
  env.lT0 ≤ env.lT1 ∧ env.wT0 ≤ env.wT1 ∧ env.rT0 ≤ env.rT1 ∧
    env.pT0 ≤ env.pT1

def AnalysisEnv.timeMono (env : AnalysisEnv) : Prop :=
  env.lT0 ≤ env.lT1 ∧ env.iT0 ≤ env.iT1 ∧ env.rT0 ≤ env.rT1 ∧
    env.nT0 ≤ env.nT1 ∧ env.cT0 ≤ env.cT1

/-- C7 counterexample: `executeLocationAnalysisWorkflow` invoked with no
IP and no city/country records zero steps, refuting `steps.length ≥ 1`
over "the four execute*Workflow operations regardless of inputs". -/
theorem executeLocationAnalysisWorkflow_no_input_zero_steps :
    ¬ (1 ≤ (executeLocationAnalysisWorkflow sampleCtx [] {}
        sampleAnalysisEnv).exec.steps.length) := by
  decide

/-- C7 (amended): for the location, weather and travel workflows on all
inputs, and for the analysis workflow whenever an IP or both city and
country are provided, the returned execution has `steps.length ≥ 1`,
its step-name sequence is a prefix of the fixed invocation order of that
workflow (optional first step included or skipped as invoked), and no
step's duration is negative given non-decreasing `Date.now()`
readings. -/
theorem executions_steps_order_durations :
    (∀ (ctx : Ctx) (store : Store) (ip : String) (env : LocEnv),
      env.timeMono →
      1 ≤ (executeLocationWorkflow ctx store ip env).exec.steps.length ∧
      ((executeLocationWorkflow ctx store ip env).exec.steps.map Step.name =
          ["Validate IP Address"] ∨
        (executeLocationWorkflow ctx store ip env).exec.steps.map Step.name =
          ["Validate IP Address", "Get Location from IP"]) ∧
      (∀ st ∈ (executeLocationWorkflow ctx store ip env).exec.steps,
        ∀ d, st.duration = some d → 0 ≤ d)) ∧
    (∀ (ctx : Ctx) (store : Store) (ip : String) (env : WeatherEnv),
      env.timeMono →
      1 ≤ (executeWeatherWorkflow ctx store ip env).exec.steps.length ∧
      ((executeWeatherWorkflow ctx store ip env).exec.steps.map Step.name =
          ["Get Location from IP"] ∨
        (executeWeatherWorkflow ctx store ip env).exec.steps.map Step.name =
          ["Get Location from IP", "Get Weather for Location"]) ∧
      (∀ st ∈ (executeWeatherWorkflow ctx store ip env).exec.steps,
        ∀ d, st.duration = some d → 0 ≤ d)) ∧
    (∀ (ctx : Ctx) (store : Store) (args : TravelArgs) (env : TravelEnv),
      env.timeMono →
      1 ≤ (executeTravelPlanningWorkflow ctx store args env).exec.steps.length ∧
      ((executeTravelPlanningWorkflow ctx store args env).exec.steps.map Step.name =
          ["Get Location from IP"] ∨
        (executeTravelPlanningWorkflow ctx store args env).exec.steps.map Step.name =
          ["Get Location from IP", "Get Weather Forecast",
           "Generate Travel Recommendations", "Create Travel Plan"] ∨
        (executeTravelPlanningWorkflow ctx store args env).exec.steps.map Step.name =
          ["Get Weather Forecast", "Generate Travel Recommendations",
           "Create Travel Plan"]) ∧
      (∀ st ∈ (executeTravelPlanningWorkflow ctx store args env).exec.steps,
        ∀ d, st.duration = some d → 0 ≤ d)) ∧
    (∀ (ctx : Ctx) (store : Store) (args : AnalysisArgs) (env : AnalysisEnv),
      env.timeMono →
      (strTruthy args.ip = true ∨ (strTruthy args.city && strTruthy args.country) = true) →
      1 ≤ (executeLocationAnalysisWorkflow ctx store args env).exec.steps.length ∧
      ((executeLocationAnalysisWorkflow ctx store args env).exec.steps.map Step.name =
          ["Get Location from IP"] ∨
        (executeLocationAnalysisWorkflow ctx store args env).exec.steps.map Step.name =
          ["Get Location from IP", "Generate Location Insights",
           "Analyze Location Risks", "Find Nearby Places",
           "Compile Comprehensive Analysis"] ∨
        (executeLocationAnalysisWorkflow ctx store args env).exec.steps.map Step.name =
          ["Generate Location Insights", "Analyze Location Risks",
           "Find Nearby Places", "Compile Comprehensive Analysis"]) ∧
      (∀ st ∈ (executeLocationAnalysisWorkflow ctx store args env).exec.steps,
        ∀ d, st.duration = some d → 0 ≤ d)) := by
  refine ⟨?_, ?_, ?_, ?_⟩
  · intro ctx store ip env hm
    obtain ⟨h1, h2⟩ := hm
    rcases hv : isValidIP ip <;>
    rcases hk : strTruthy ctx.IPGEOLOCATION_API_KEY <;>
    rcases hg : env.geo with loc | m <;>
      simp [executeLocationWorkflow, executeStep, getLocationOp, finalizeFrom,
        shortCircuitExec, errMessage, hv, hk, hg] <;>
      omega
  · intro ctx store ip env hm
    obtain ⟨h1, h2⟩ := hm
    rcases hk : strTruthy ctx.IPGEOLOCATION_API_KEY <;>
    rcases hg : env.geo with loc | m <;>
    rcases hwk : strTruthy ctx.OPENWEATHER_API_KEY <;>
    rcases hw : env.weather with w | wm <;>
      simp [executeWeatherWorkflow, executeStep, weatherOp, finalizeFrom,
        shortCircuitExec, errMessage, hk, hg, hwk, hw] <;>
      omega
  · intro ctx store args env hm
    obtain ⟨h1, h2, h3, h4⟩ := hm
    rcases hip : strTruthy args.ip <;>
    rcases hk : strTruthy ctx.IPGEOLOCATION_API_KEY <;>
    rcases hg : env.geo with loc | m <;>
    rcases hp : env.plan with p | pm <;>
      simp [executeTravelPlanningWorkflow, travelRest, travelPlanOp,
        executeStep_name, executeStep_status, executeStep_duration, opStatus,
        finalizeFrom, shortCircuitExec, errMessage,
        hip, hk, hg, hp] <;>
      omega
  · intro ctx store args env hm hin
    obtain ⟨h1, h2, h3, h4, h5⟩ := hm
    rcases hcond : strTruthy args.ip && (!strTruthy args.city || !strTruthy args.country) <;>
    rcases hck : strTruthy args.city && strTruthy args.country <;>
    rcases hk : strTruthy ctx.IPGEOLOCATION_API_KEY <;>
    rcases hg : env.geo with loc | m <;>
      simp [executeLocationAnalysisWorkflow, analysisRest, insightsOp,
        riskAnalysisOp, nearbyPlacesOp, executeStep_name, executeStep_status,
        executeStep_duration, opStatus, finalizeFrom, shortCircuitExec,
        errMessage, hcond, hck, hk, hg] <;>
      first
        | omega
        | (rcases hin with hin | hin <;> simp_all)

/-- C7 witness: concrete monotone-clock runs of all four workflows. -/
theorem executions_steps_order_durations_witness :
    1 ≤ (executeLocationWorkflow sampleCtx [] "8.8.8.8"
      { execId := "exec_1_a", startedAt := "s", completedAt := "c",
        vT0 := 0, vT1 := 1, gT0 := 1, gT1 := 3, geo := .ok sampleLoc }).exec.steps.length ∧
    1 ≤ (executeWeatherWorkflow sampleCtx [] "8.8.8.8"
      { execId := "exec_1_b", startedAt := "s", completedAt := "c",
        lT0 := 0, lT1 := 1, wT0 := 1, wT1 := 3,
        geo := .ok sampleLoc, weather := .ok "w" }).exec.steps.length ∧
    1 ≤ (executeTravelPlanningWorkflow sampleCtx [] sampleTravelArgs
      sampleTravelEnv).exec.steps.length ∧
    1 ≤ (executeLocationAnalysisWorkflow sampleCtx [] sampleAnalysisArgs
      sampleAnalysisEnv).exec.steps.length :=
  ⟨(executions_steps_order_durations.1 sampleCtx [] "8.8.8.8" _
      ⟨by decide, by decide⟩).1,
   (executions_steps_order_durations.2.1 sampleCtx [] "8.8.8.8" _
      ⟨by decide, by decide⟩).1,
   (executions_steps_order_durations.2.2.1 sampleCtx [] sampleTravelArgs
      sampleTravelEnv ⟨by decide, by decide, by decide, by decide⟩).1,
   (executions_steps_order_durations.2.2.2 sampleCtx [] sampleAnalysisArgs
      sampleAnalysisEnv ⟨by decide, by decide, by decide, by decide, by decide⟩
      (Or.inr (by decide))).1⟩

/-! ## C8: purge removes exactly the terminal executions -/

/-- Lookup misses when no stored entry carries the key. -/
theorem getExecution_none_of_no_key (s : Store) (id : String)
    (h : ∀ p ∈ s, p.1 ≠ id) : getExecution s id = none := by
  unfold getExecution
  rw [List.find?_eq_none.mpr]
  · rfl
  · intro p hp
    simpa using h p hp

/-- C8: `clearCompletedExecutions` removes exactly the executions whose
status is `completed` or `failed`: on a store with unique keys (the
`Map` invariant), every id that resolved to a terminal execution before
the purge resolves to not-found afterwards, every id that resolved to a
non-terminal execution resolves to the same unchanged record, and absent
ids stay absent. -/
theorem clearCompletedExecutions_purges_terminal (s : Store) (id : String)
    (hnd : (s.map Prod.fst).Nodup) :
    (∀ e, getExecution s id = some e → isTerminal e = true →
      getExecution (clearCompletedExecutions s) id = none) ∧
    (∀ e, getExecution s id = some e → isTerminal e = false →
      getExecution (clearCompletedExecutions s) id = some e) ∧
    (getExecution s id = none →
      getExecution (clearCompletedExecutions s) id = none) := by
  induction s with
  | nil => simp [getExecution, clearCompletedExecutions]
  | cons p t ih =>
    simp only [List.map_cons, List.nodup_cons] at hnd
    obtain ⟨hpk, hnd'⟩ := hnd
    obtain ⟨ih1, ih2, ih3⟩ := ih hnd'
    by_cases hp : p.1 = id
    · subst hp
      refine ⟨?_, ?_, ?_⟩
      · intro e he hterm
        rw [show getExecution (p :: t) p.1 = some p.2 by
          simp [getExecution, List.find?_cons_of_pos]] at he
        obtain rfl : p.2 = e := by simpa using he
        simp only [clearCompletedExecutions, List.filter_cons, hterm,
          Bool.not_true, Bool.false_eq_true, if_neg, ite_false]
        apply getExecution_none_of_no_key
        intro q hq hqk
        apply hpk
        have : q ∈ t := List.mem_of_mem_filter hq
        exact hqk ▸ List.mem_map_of_mem Prod.fst this
      · intro e he hterm
        rw [show getExecution (p :: t) p.1 = some p.2 by
          simp [getExecution, List.find?_cons_of_pos]] at he
        obtain rfl : p.2 = e := by simpa using he
        simp [clearCompletedExecutions, List.filter_cons, hterm, getExecution,
          List.find?_cons_of_pos]
      · intro he
        rw [show getExecution (p :: t) p.1 = some p.2 by
          simp [getExecution, List.find?_cons_of_pos]] at he
        simp at he
    · have hstep : getExecution (p :: t) id = getExecution t id := by
        simp [getExecution, List.find?_cons_of_neg, hp]
      have hclear : getExecution (clearCompletedExecutions (p :: t)) id =
          getExecution (clearCompletedExecutions t) id := by
        simp only [clearCompletedExecutions, List.filter_cons]
        by_cases hterm : isTerminal p.2
        · simp [hterm]
        · simp only [hterm, Bool.not_false, if_pos]
          simp [getExecution, List.find?_cons_of_neg, hp]
      rw [hstep, hclear]
      exact ⟨ih1, ih2, ih3⟩

/-- A concrete terminal execution stored under key `"a"`. -/
def sampleDoneExec : WorkflowExecution :=
  { id := "a", status := .completed, steps := [], result := some "r",
    startedAt := "s", completedAt := some "c" }

/-- A concrete still-running execution stored under key `"b"`. -/
def sampleRunningExec : WorkflowExecution :=
  { id := "b", status := .running, steps := [], startedAt := "s" }

/-- C8 witness: purging a two-entry store removes the terminal entry and
leaves the running one unchanged. -/
theorem clearCompletedExecutions_purges_terminal_witness :
    getExecution (clearCompletedExecutions
      [("a", sampleDoneExec), ("b", sampleRunningExec)]) "a" = none ∧
    getExecution (clearCompletedExecutions
      [("a", sampleDoneExec), ("b", sampleRunningExec)]) "b" =
      some sampleRunningExec :=
  ⟨(clearCompletedExecutions_purges_terminal
      [("a", sampleDoneExec), ("b", sampleRunningExec)] "a" (by decide)).1
      sampleDoneExec (by decide) (by decide),
   (clearCompletedExecutions_purges_terminal
      [("a", sampleDoneExec), ("b", sampleRunningExec)] "b" (by decide)).2.1
      sampleRunningExec (by decide) (by decide)⟩

/-! ## C9: execution-identifier uniqueness

`generateExecutionId` concatenates a `Date.now()` millisecond reading
and a 9-character base-36 `Math.random()` suffix.  Two concurrent
invocations can read the same millisecond and draw the same suffix, so
the identifiers are not unconditionally distinct; they are distinct
exactly when the drawn pair differs.  The development below proves the
decimal rendering of the timestamp injective and underscore-free, which
pins down how the id string splits at its separators. -/

/-- Most-significant-first decimal digit list of a natural number, the
reference shape of `Nat.toDigitsCore` output. -/
def natDigits (n : Nat) : List Char :=
  if _h : n < 10 then [Nat.digitChar n]
  else natDigits (n / 10) ++ [Nat.digitChar (n % 10)]
  termination_by n
  decreasing_by
    exact Nat.div_lt_self (by omega) (by omega)

theorem natDigits_small (n : Nat) (h : n < 10) :
    natDigits n = [Nat.digitChar n] := by
  rw [natDigits]
  exact dif_pos h

theorem natDigits_large (n : Nat) (h : ¬ n < 10) :
    natDigits n = natDigits (n / 10) ++ [Nat.digitChar (n % 10)] := by
  rw [natDigits]
  exact dif_neg h

/-- Fuel-indexed `Nat.toDigitsCore` agrees with `natDigits` whenever the
fuel covers the digit count. -/
theorem toDigitsCore_eq_natDigits :
    ∀ (f n : Nat) (acc : List Char), 0 < f → n < 10 ^ f →
      Nat.toDigitsCore 10 f n acc = natDigits n ++ acc := by
  intro f
  induction f with
  | zero => omega
  | succ f ih =>
    intro n acc _ hlt
    rw [Nat.toDigitsCore]
    by_cases h0 : n / 10 = 0
    · have hn : n < 10 := by omega
      rw [if_pos h0, natDigits_small n hn, Nat.mod_eq_of_lt hn]
      rfl
    · have hn : ¬ n < 10 := by
        intro hc
        exact h0 (Nat.div_eq_of_lt hc)
      have hf : 0 < f := by
        rcases Nat.eq_zero_or_pos f with rfl | hf
        · simp at hlt
          omega
        · exact hf
      have hdiv : n / 10 < 10 ^ f := by
        rw [Nat.div_lt_iff_lt_mul (by omega)]
        calc n < 10 ^ (f + 1) := hlt
        _ = 10 ^ f * 10 := by rw [Nat.pow_succ]
      rw [if_neg h0, ih (n / 10) _ hf hdiv, natDigits_large n hn,
        List.append_assoc]
      rfl

/-- The characters of `Nat.repr` (and so of `toString` on `Nat`) are
exactly `natDigits`. -/
theorem natRepr_data (n : Nat) : (Nat.repr n).data = natDigits n := by
  show (Nat.toDigits 10 n).asString.data = natDigits n
  show Nat.toDigitsCore 10 (n + 1) n [] = natDigits n
  rw [toDigitsCore_eq_natDigits (n + 1) n [] (by omega)
    (lt_of_lt_of_le (Nat.lt_pow_self (by omega) n)
      (Nat.pow_le_pow_right (by omega) (by omega)))]
  simp

theorem digitChar_ne_underscore (n : Nat) (h : n < 10) :
    Nat.digitChar n ≠ '_' := by
  interval_cases n <;> decide

theorem digitChar_inj_lt (a b : Nat) (ha : a < 10) (hb : b < 10)
    (h : Nat.digitChar a = Nat.digitChar b) : a = b := by
  interval_cases a <;> interval_cases b <;>
    first
      | rfl
      | (exfalso; revert h; decide)

theorem natDigits_ne_nil (n : Nat) : natDigits n ≠ [] := by
  rw [natDigits]
  split <;> simp

theorem underscore_not_mem_natDigits (n : Nat) : '_' ∉ natDigits n := by
  induction n using Nat.strong_induction_on with
  | _ n ih =>
    rw [natDigits]
    split
    · simp
      exact fun hc => digitChar_ne_underscore n (by omega) hc.symm
    · simp only [List.mem_append, List.mem_singleton]
      rintro (hc | hc)
      · exact ih (n / 10) (Nat.div_lt_self (by omega) (by omega)) hc
      · exact digitChar_ne_underscore (n % 10) (Nat.mod_lt _ (by omega)) hc.symm

theorem natDigits_inj : ∀ m n : Nat, natDigits m = natDigits n → m = n := by
  intro m
  induction m using Nat.strong_induction_on with
  | _ m ih =>
    intro n h
    by_cases hm : m < 10 <;> by_cases hn : n < 10
    · rw [natDigits_small m hm, natDigits_small n hn] at h
      simp at h
      exact digitChar_inj_lt m n hm hn h
    · rw [natDigits_small m hm, natDigits_large n hn] at h
      have := congrArg List.length h
      simp at this
      exact absurd this (natDigits_ne_nil (n / 10))
    · rw [natDigits_large m hm, natDigits_small n hn] at h
      have := congrArg List.length h
      simp at this
      exact absurd this (natDigits_ne_nil (m / 10))
    · rw [natDigits_large m hm, natDigits_large n hn] at h
      obtain ⟨h1, h2⟩ := List.append_inj' h (by simp)
      have hdiv : m / 10 = n / 10 :=
        ih (m / 10) (Nat.div_lt_self (by omega) (by omega)) _ h1
      have hmod : m % 10 = n % 10 := by
        simp at h2
        exact digitChar_inj_lt _ _ (Nat.mod_lt _ (by omega))
          (Nat.mod_lt _ (by omega)) h2
      omega

/-- A list equation split at a separator character occurring in neither
left part determines both parts. -/
theorem sep_split_inj (c : Char) :
    ∀ (a1 a2 b1 b2 : List Char), c ∉ a1 → c ∉ a2 →
      a1 ++ c :: b1 = a2 ++ c :: b2 → a1 = a2 ∧ b1 = b2 := by
  intro a1
  induction a1 with
  | nil =>
    intro a2 b1 b2 _ h2 h
    cases a2 with
    | nil => simpa using h
    | cons y ys =>
      simp at h
      obtain ⟨rfl, -⟩ := h
      simp at h2
  | cons x xs ih =>
    intro a2 b1 b2 h1 h2 h
    cases a2 with
    | nil =>
      simp at h
      obtain ⟨rfl, -⟩ := h
      simp at h1
    | cons y ys =>
      simp only [List.cons_append, List.cons.injEq] at h
      obtain ⟨rfl, htail⟩ := h
      simp only [List.mem_cons, not_or] at h1 h2
      obtain ⟨ha, hb⟩ := ih ys b1 b2 h1.2 h2.2 htail
      exact ⟨by rw [ha], hb⟩

/-- C9 counterexample: two invocations of `generateExecutionId` that
read the same `Date.now()` millisecond and draw the same
`Math.random()` base-36 suffix — a pair of concurrent calls the claim
quantifies over — produce the same identifier, refuting "the two
executions created never share the same identifier" over all timestamps
and random draws. -/
theorem generateExecutionId_same_draws_collide :
    generateExecutionId 1700000000000 "k2j3h4g5f" =
      generateExecutionId 1700000000000 "k2j3h4g5f" := rfl

/-- C9 (amended): two invocations of `generateExecutionId` share an
identifier only if they read the same timestamp and drew the same
suffix; whenever the drawn pairs differ — suffixes being
underscore-free, as every base-36 `Math.random()` suffix is — the
identifiers differ. -/
theorem generateExecutionId_inj (t1 t2 : Nat) (r1 r2 : String)
    (h1 : '_' ∉ r1.data) (h2 : '_' ∉ r2.data)
    (h : generateExecutionId t1 r1 = generateExecutionId t2 r2) :
    t1 = t2 ∧ r1 = r2 := by
  unfold generateExecutionId at h
  have hd := congrArg String.data h
  simp only [String.data_append, List.append_assoc] at hd
  have hts : (toString t1).data = (Nat.repr t1).data := rfl
  have hts2 : (toString t2).data = (Nat.repr t2).data := rfl
  rw [hts, hts2, natRepr_data, natRepr_data] at hd
  have hd' : natDigits t1 ++ '_' :: r1.data = natDigits t2 ++ '_' :: r2.data := by
    have := hd
    simp only [show ("exec_" : String).data = ['e', 'x', 'e', 'c', '_'] from rfl,
      show ("_" : String).data = ['_'] from rfl] at this
    simpa using this
  obtain ⟨hD, hR⟩ := sep_split_inj '_' (natDigits t1) (natDigits t2) r1.data r2.data
    (underscore_not_mem_natDigits t1) (underscore_not_mem_natDigits t2) hd'
  refine ⟨natDigits_inj t1 t2 hD, ?_⟩
  cases r1
  cases r2
  exact congrArg String.mk (by simpa using hR)

/-- C9 witness: the amended theorem applied at a concrete draw pair. -/
theorem generateExecutionId_inj_witness :
    (1700000000000 : Nat) = 1700000000000 ∧ ("k2j3h4g5f" : String) = "k2j3h4g5f" :=
  generateExecutionId_inj 1700000000000 1700000000000 "k2j3h4g5f" "k2j3h4g5f"
    (by decide) (by decide) rfl

/-! ## C10: only terminal executions ever enter the store -/

/-- Every stored entry is a terminal execution with its completion
timestamp set. -/
def storeAllTerminal (s : Store) : Prop :=
  ∀ p ∈ s, isTerminal p.2 = true ∧ p.2.completedAt.isSome

/-- C10: each of the four workflows performs exactly one store mutation,
the final `set(executionId, execution)` of its terminal result, so the
inserted record is always terminal with `completedAt` set; the
all-terminal store invariant is preserved by such inserts and by the
purge, and a lookup or enumeration of an all-terminal store can only
yield terminal executions — no `pending` or `running` execution is
observable through `getExecution` or `getAllExecutions`. -/
theorem store_receives_only_terminal :
    (∀ (ctx : Ctx) (store : Store) (ip : String) (env : LocEnv),
      (executeLocationWorkflow ctx store ip env).store =
        mapSet store (executeLocationWorkflow ctx store ip env).exec.id
          (executeLocationWorkflow ctx store ip env).exec ∧
      isTerminal (executeLocationWorkflow ctx store ip env).exec = true ∧
      (executeLocationWorkflow ctx store ip env).exec.completedAt.isSome) ∧
    (∀ (ctx : Ctx) (store : Store) (ip : String) (env : WeatherEnv),
      (executeWeatherWorkflow ctx store ip env).store =
        mapSet store (executeWeatherWorkflow ctx store ip env).exec.id
          (executeWeatherWorkflow ctx store ip env).exec ∧
      isTerminal (executeWeatherWorkflow ctx store ip env).exec = true ∧
      (executeWeatherWorkflow ctx store ip env).exec.completedAt.isSome) ∧
    (∀ (ctx : Ctx) (store : Store) (args : TravelArgs) (env : TravelEnv),
      (executeTravelPlanningWorkflow ctx store args env).store =
        mapSet store (executeTravelPlanningWorkflow ctx store args env).exec.id
          (executeTravelPlanningWorkflow ctx store args env).exec ∧
      isTerminal (executeTravelPlanningWorkflow ctx store args env).exec = true ∧
      (executeTravelPlanningWorkflow ctx store args env).exec.completedAt.isSome) ∧
    (∀ (ctx : Ctx) (store : Store) (args : AnalysisArgs) (env : AnalysisEnv),
      (executeLocationAnalysisWorkflow ctx store args env).store =
        mapSet store (executeLocationAnalysisWorkflow ctx store args env).exec.id
          (executeLocationAnalysisWorkflow ctx store args env).exec ∧
      isTerminal (executeLocationAnalysisWorkflow ctx store args env).exec = true ∧
      (executeLocationAnalysisWorkflow ctx store args env).exec.completedAt.isSome) ∧
    (∀ (s : Store) (k : String) (e : WorkflowExecution),
      storeAllTerminal s → isTerminal e = true → e.completedAt.isSome →
        storeAllTerminal (mapSet s k e)) ∧
    (∀ s : Store, storeAllTerminal s →
      storeAllTerminal (clearCompletedExecutions s)) ∧
    (∀ (s : Store) (id : String) (e : WorkflowExecution),
      storeAllTerminal s → getExecution s id = some e →
        isTerminal e = true ∧ e.completedAt.isSome) ∧
    (∀ s : Store, storeAllTerminal s →
      ∀ e ∈ getAllExecutions s, isTerminal e = true ∧ e.completedAt.isSome) := by
  refine ⟨?_, ?_, ?_, ?_, ?_, ?_, ?_, ?_⟩
  · intro ctx store ip env
    rcases hv : isValidIP ip <;>
    rcases hk : strTruthy ctx.IPGEOLOCATION_API_KEY <;>
    rcases hg : env.geo with loc | m <;>
      simp [isTerminal, executeLocationWorkflow, executeStep, getLocationOp,
        finalizeFrom, shortCircuitExec, errMessage, hv, hk, hg]
  · intro ctx store ip env
    rcases hk : strTruthy ctx.IPGEOLOCATION_API_KEY <;>
    rcases hg : env.geo with loc | m <;>
    rcases hwk : strTruthy ctx.OPENWEATHER_API_KEY <;>
    rcases hw : env.weather with w | wm <;>
      simp [isTerminal, executeWeatherWorkflow, executeStep, weatherOp,
        finalizeFrom, shortCircuitExec, errMessage, hk, hg, hwk, hw]
  · intro ctx store args env
    rcases hip : strTruthy args.ip <;>
    rcases hk : strTruthy ctx.IPGEOLOCATION_API_KEY <;>
    rcases hg : env.geo with loc | m <;>
    rcases hp : env.plan with p | pm <;>
      simp [isTerminal, executeTravelPlanningWorkflow, travelRest, travelPlanOp,
        executeStep_status, executeStep_output, executeStep_error, opStatus,
        finalizeFrom, shortCircuitExec, errMessage, hip, hk, hg, hp]
  · intro ctx store args env
    rcases hcond : strTruthy args.ip && (!strTruthy args.city || !strTruthy args.country) <;>
    rcases hck : strTruthy args.city && strTruthy args.country <;>
    rcases hk : strTruthy ctx.IPGEOLOCATION_API_KEY <;>
    rcases hg : env.geo with loc | m <;>
      simp [isTerminal, executeLocationAnalysisWorkflow, analysisRest,
        executeStep_status, opStatus, finalizeFrom, shortCircuitExec,
        errMessage, hcond, hck, hk, hg]
  · intro s k e hs he hc p hp
    unfold mapSet at hp
    split at hp
    · obtain ⟨q, hq, hfq⟩ := List.mem_map.mp hp
      by_cases hqk : q.1 == k
      · rw [if_pos hqk] at hfq
        rw [← hfq]
        exact ⟨he, hc⟩
      · rw [if_neg hqk] at hfq
        rw [← hfq]
        exact hs q hq
    · rcases List.mem_append.mp hp with h | h
      · exact hs p h
      · simp only [List.mem_singleton] at h
        rw [h]
        exact ⟨he, hc⟩
  · intro s hs p hp
    exact hs p (List.mem_of_mem_filter hp)
  · intro s id e hs he
    unfold getExecution at he
    obtain ⟨q, hq, hqe⟩ := Option.map_eq_some'.mp he
    have := hs q (List.mem_of_find?_eq_some hq)
    rw [← hqe]
    exact this
  · intro s hs e he
    obtain ⟨p, hp, hpe⟩ := List.mem_map.mp he
    rw [← hpe]
    exact hs p hp

/-- C10 witness: the lookup clause applied to a concrete all-terminal
store. -/
theorem store_receives_only_terminal_witness :
    isTerminal sampleDoneExec = true ∧ sampleDoneExec.completedAt.isSome :=
  store_receives_only_terminal.2.2.2.2.2.2.1 [("a", sampleDoneExec)] "a"
    sampleDoneExec
    (by
      intro p hp
      simp only [List.mem_singleton] at hp
      rw [hp]
      exact ⟨by decide, by decide⟩)
    (by decide)

end WorkflowEngine
